import Mathlib

/-!
Verification development for the `nani` library (`nani.py`): a declarative
schema language over NumPy arrays.  The Python source is shallowly embedded:

* `PyClass` enumerates the Python / NumPy / nani classes the source mentions,
  with `ancestors` encoding the relevant class hierarchy facts of the host
  language (`issubclass` / `isinstance`), including the `numbers` ABC
  registrations (Python's `bool` is a subclass of `int`, which is registered
  with `numbers.Number`; NumPy's `bool_`, `object_`, `string_`, `unicode_`
  are subclasses of `numpy.generic` but not of `numpy.number`, and only the
  genuinely numeric NumPy scalar types are registered with the `numbers`
  tower).  The intermediate ABCs (`Real`, `Integral`, ...) never appear in
  the source, so the tower is collapsed to `numbers.Number` itself.
* `PyVal` is a loose Python value: mutable `list` nodes carry an identity
  (`id`), so that aliasing of mutable objects and `copy.deepcopy` are
  observable; two occurrences of the same `id` model one shared object.
* `DataType` mirrors nani's data-type records (named tuples).  Attributes
  that the validator inspects for ill-typed caller input (`shape`, defaults)
  are kept loose (`PyVal`); `Field` entries are modeled by `FieldT`, where
  `mk2` is a raw 2-tuple and `mk3` is a 3-tuple; `nani.Field` instances
  compare equal to plain 3-tuples in Python, so both are modeled by `mk3`.
  Values that Python could not even build (malformed field tuples of other
  lengths, non-class `view` attributes) are outside the embedded domain, so
  the corresponding error branches of `_check_data_type` are unreachable
  here and are omitted.
-/

namespace NaniModel

/-- The classes that appear in `nani.py` or in the claims: Python builtins,
the `numbers` ABC, NumPy scalar-type classes, and nani's own data types. -/
inductive PyClass where
  | pyBool | pyInt | pyFloat | pyStr | pyBytes | pyTuple | pyList | pyNoneType | pyType
  | objectCls
  | numbersNumber
  | npGeneric | npNumber | npBool | npObject | npString | npUnicode
  | npFloat64 | npFloat32 | npUint8 | npUint32 | npInt32
  | naniBool | naniObject | naniNumber | naniString | naniUnicode | naniArray
  | naniStructure
  deriving DecidableEq, Repr

/-- The ancestry (method-resolution order plus ABC registrations) of each
class, including itself: `issubclass(a, b)` holds iff `b ∈ ancestors a`. -/
def ancestors : PyClass → List PyClass
  | .pyBool => [.pyBool, .pyInt, .numbersNumber, .objectCls]
  | .pyInt => [.pyInt, .numbersNumber, .objectCls]
  | .pyFloat => [.pyFloat, .numbersNumber, .objectCls]
  | .pyStr => [.pyStr, .objectCls]
  | .pyBytes => [.pyBytes, .objectCls]
  | .pyTuple => [.pyTuple, .objectCls]
  | .pyList => [.pyList, .objectCls]
  | .pyNoneType => [.pyNoneType, .objectCls]
  | .pyType => [.pyType, .objectCls]
  | .objectCls => [.objectCls]
  | .numbersNumber => [.numbersNumber, .objectCls]
  | .npGeneric => [.npGeneric, .objectCls]
  | .npNumber => [.npNumber, .npGeneric, .objectCls]
  | .npBool => [.npBool, .npGeneric, .objectCls]
  | .npObject => [.npObject, .npGeneric, .objectCls]
  | .npString => [.npString, .pyBytes, .npGeneric, .objectCls]
  | .npUnicode => [.npUnicode, .pyStr, .npGeneric, .objectCls]
  | .npFloat64 => [.npFloat64, .pyFloat, .npNumber, .npGeneric, .numbersNumber, .objectCls]
  | .npFloat32 => [.npFloat32, .npNumber, .npGeneric, .numbersNumber, .objectCls]
  | .npUint8 => [.npUint8, .npNumber, .npGeneric, .numbersNumber, .objectCls]
  | .npUint32 => [.npUint32, .npNumber, .npGeneric, .numbersNumber, .objectCls]
  | .npInt32 => [.npInt32, .npNumber, .npGeneric, .numbersNumber, .objectCls]
  | .naniBool => [.naniBool, .pyTuple, .objectCls]
  | .naniObject => [.naniObject, .pyTuple, .objectCls]
  | .naniNumber => [.naniNumber, .pyTuple, .objectCls]
  | .naniString => [.naniString, .pyTuple, .objectCls]
  | .naniUnicode => [.naniUnicode, .pyTuple, .objectCls]
  | .naniArray => [.naniArray, .pyTuple, .objectCls]
  | .naniStructure => [.naniStructure, .pyTuple, .objectCls]

/-- `issubclass(a, b)` for single classes. -/
def issubclassB (a b : PyClass) : Bool :=
  (ancestors a).contains b

/-- `issubclass(a, ts)` against a tuple of classes. -/
def issubclassAny (a : PyClass) (ts : List PyClass) : Bool :=
  ts.any (fun t => issubclassB a t)

/-- A loose Python value.  Mutable `list` nodes carry an identity so that
object aliasing and deep copying are observable; `scalar cls arg` stands
for the result of calling a NumPy scalar-type constructor `cls(arg)`,
kept symbolic (the source delegates numeric coercion to that constructor).
`ntuple` is an instance of a `collections.namedtuple` type. -/
inductive PyVal where
  | none
  | bool (b : Bool)
  | int (n : Int)
  | str (s : String)
  | bytes (s : String)
  | scalar (cls : PyClass) (arg : PyVal)
  | tup (elems : List PyVal)
  | list (id : Nat) (elems : List PyVal)
  | ntuple (name : String) (fieldNames : List String) (values : List PyVal)

/-- The Python class of a value (`type(v)`); named-tuple instances are
tuple subclasses. -/
def classOf : PyVal → PyClass
  | .none => .pyNoneType
  | .bool _ => .pyBool
  | .int _ => .pyInt
  | .str _ => .pyStr
  | .bytes _ => .pyBytes
  | .scalar c _ => c
  | .tup _ => .pyTuple
  | .list _ _ => .pyList
  | .ntuple _ _ _ => .pyTuple

mutual
/-- A nani data type: one constructor per variant of the source's named
tuples `Bool`, `Object`, `Number`, `String`, `Unicode`, `Array`,
`Structure`, in the attribute order of the source. -/
inductive DataType where
  | boolDT (default : PyVal) (view : Option PyClass)
  | objectDT (default : PyVal) (view : Option PyClass)
  | numberDT (type : Option PyClass) (default : PyVal) (view : Option PyClass)
  | stringDT (length : PyVal) (default : PyVal) (view : Option PyClass)
  | unicodeDT (length : PyVal) (default : PyVal) (view : Option PyClass)
  | arrayDT (elementType : DataType) (shape : PyVal) (name : Option String)
    (view : Option PyClass)
  | structureDT (fields : List FieldT) (name : Option String) (view : Option PyClass)

/-- One entry of a `Structure`'s `fields` attribute: a raw 2-tuple
`(name, type)` or a 3-tuple `(name, type, read_only)`; `nani.Field`
records are 3-tuples (named tuples compare equal to plain tuples). -/
inductive FieldT where
  | mk2 (name : String) (ty : DataType)
  | mk3 (name : String) (ty : DataType) (readOnly : Bool)
end

/-- `field[0]`: the field name, by position (used before consolidation). -/
def FieldT.name0 : FieldT → String
  | .mk2 n _ => n
  | .mk3 n _ _ => n

/-- `field[1]`: the field type, by position. -/
def FieldT.type1 : FieldT → DataType
  | .mk2 _ t => t
  | .mk3 _ t _ => t

/-- The nani class of a data-type instance (`_find_base_type`, which walks
the MRO; in this embedding every value is an instance of a base variant). -/
def variantClass : DataType → PyClass
  | .boolDT _ _ => .naniBool
  | .objectDT _ _ => .naniObject
  | .numberDT _ _ _ => .naniNumber
  | .stringDT _ _ _ => .naniString
  | .unicodeDT _ _ _ => .naniUnicode
  | .arrayDT _ _ _ _ => .naniArray
  | .structureDT _ _ _ => .naniStructure

/-- `type(data_type).__name__` for the base variants. -/
def className : DataType → String
  | .boolDT _ _ => "Bool"
  | .objectDT _ _ => "Object"
  | .numberDT _ _ _ => "Number"
  | .stringDT _ _ _ => "String"
  | .unicodeDT _ _ _ => "Unicode"
  | .arrayDT _ _ _ _ => "Array"
  | .structureDT _ _ _ => "Structure"

/-- `isinstance(data_type, _ATOMIC)`. -/
def isAtomic : DataType → Bool
  | .boolDT _ _ => true
  | .objectDT _ _ => true
  | .numberDT _ _ _ => true
  | .stringDT _ _ _ => true
  | .unicodeDT _ _ _ => true
  | .arrayDT _ _ _ _ => false
  | .structureDT _ _ _ => false

/-- The value of one attribute of a data type, as the validator and
`update` see it: a plain Python value, a class object (or `None`), a
nested data type, or a field tuple sequence. -/
inductive AttrVal where
  | pv (v : PyVal)
  | cls (c : Option PyClass)
  | elemDT (d : DataType)
  | flds (fs : List FieldT)

/-- Encode an optional `name` attribute as the Python value it holds. -/
def optStrToPy : Option String → PyVal
  | Option.none => .none
  | some s => .str s

/-- The ordered `(attribute name, value)` pairs of a data type, mirroring
each named tuple's `_fields` order in the source. -/
def attrsOf : DataType → List (String × AttrVal)
  | .boolDT d v => [("default", .pv d), ("view", .cls v)]
  | .objectDT d v => [("default", .pv d), ("view", .cls v)]
  | .numberDT t d v => [("type", .cls t), ("default", .pv d), ("view", .cls v)]
  | .stringDT l d v => [("length", .pv l), ("default", .pv d), ("view", .cls v)]
  | .unicodeDT l d v => [("length", .pv l), ("default", .pv d), ("view", .cls v)]
  | .arrayDT et sh n v =>
    [("element_type", .elemDT et), ("shape", .pv sh), ("name", .pv (optStrToPy n)),
      ("view", .cls v)]
  | .structureDT fs n v =>
    [("fields", .flds fs), ("name", .pv (optStrToPy n)), ("view", .cls v)]

/-- `getattr(data_type, name)` over the embedded attribute list. -/
def getattrA (dt : DataType) (n : String) : Option AttrVal :=
  (attrsOf dt).lookup n

/-- Whether an attribute value is Python `None`. -/
def isNoneA : AttrVal → Bool
  | .pv .none => true
  | .cls Option.none => true
  | _ => false

/-- The Python class of an attribute value.  Field sequences are modeled
as supplied in tuple form; a class object is an instance of `type`. -/
def classOfA : AttrVal → PyClass
  | .pv v => classOf v
  | .cls _ => .pyType
  | .elemDT d => variantClass d
  | .flds _ => .pyTuple

/-- One entry of `_TYPE_ATTRIBUTE_CHECKS`: `_FieldInstanceCheck` or
`_FieldSubclassCheck`, with the attribute name, the allowed type(s) and
the `allow_none` flag. -/
inductive AttrCheck where
  | instCheck (name : String) (types : List PyClass) (allowNone : Bool)
  | subCheck (name : String) (types : List PyClass) (allowNone : Bool)

/-- `_NUMBER_TYPES = (numbers.Number, numpy.number)`. -/
def numberTypes : List PyClass := [.numbersNumber, .npNumber]

/-- `_SHAPE_TYPES = (int, tuple)`. -/
def shapeTypes : List PyClass := [.pyInt, .pyTuple]

/-- `_STRING_TYPES = (str,)` (Python 3 branch). -/
def stringTypes : List PyClass := [.pyStr]

/-- `_SEQUENCE_TYPES = (list, tuple)`. -/
def sequenceTypes : List PyClass := [.pyList, .pyTuple]

/-- The `_TYPE_ATTRIBUTE_CHECKS` table, keyed by the base variant. -/
def typeAttributeChecks : DataType → List AttrCheck
  | .boolDT _ _ =>
    [.instCheck "default" [.pyBool] false, .subCheck "view" [.objectCls] true]
  | .objectDT _ _ =>
    [.instCheck "default" [.objectCls] true, .subCheck "view" [.objectCls] true]
  | .numberDT _ _ _ =>
    [.subCheck "type" numberTypes false, .instCheck "default" numberTypes false,
      .subCheck "view" [.objectCls] true]
  | .stringDT _ _ _ =>
    [.instCheck "length" [.pyInt] false, .instCheck "default" [.pyBytes] false,
      .subCheck "view" [.objectCls] true]
  | .unicodeDT _ _ _ =>
    [.instCheck "length" [.pyInt] false, .instCheck "default" [.pyStr] false,
      .subCheck "view" [.objectCls] true]
  | .arrayDT _ _ _ _ =>
    [.instCheck "element_type" [.naniBool, .naniObject, .naniNumber, .naniString,
        .naniUnicode, .naniArray, .naniStructure] false,
      .instCheck "shape" shapeTypes false, .instCheck "name" stringTypes true,
      .subCheck "view" [.objectCls] true]
  | .structureDT _ _ _ =>
    [.instCheck "fields" sequenceTypes false, .instCheck "name" stringTypes true,
      .subCheck "view" [.objectCls] true]

/-- The errors `_check_data_type` can raise on the embedded domain, with
the dotted path and attribute name each message carries.  (The branches
for passing a class instead of an instance, an unsupported object, or a
malformed field tuple concern values outside the embedded domain.) -/
inductive CheckErr where
  | attrNone (path : String) (attr : String)
  | attrNotClass (path : String) (attr : String) (allowNone : Bool)
  | attrNotInstance (path : String) (attr : String) (expected : List PyClass)
    (got : PyClass)
  | attrNotSubclass (path : String) (attr : String) (expected : List PyClass)
    (got : PyClass)
  | duplicateFields (names : List String)
  deriving DecidableEq

/-- `isinstance(attribute, check.type)` for an attribute value. -/
def instOkA (a : AttrVal) (ts : List PyClass) : Bool :=
  ts.any (fun t => (ancestors (classOfA a)).contains t)

/-- Run one entry of the generic attribute-check loop of
`_check_data_type` (the `None` test, then the instance or subclass
test, each failure with its own error). -/
def runCheck (fullPath : String) (dt : DataType) (c : AttrCheck) :
    Except CheckErr Unit :=
  match c with
  | .instCheck n ts allowNone =>
    match getattrA dt n with
    | Option.none => .ok ()
    | some a =>
      if isNoneA a then
        if allowNone then .ok () else .error (.attrNone fullPath n)
      else if instOkA a ts then .ok ()
      else .error (.attrNotInstance fullPath n ts (classOfA a))
  | .subCheck n ts allowNone =>
    match getattrA dt n with
    | Option.none => .ok ()
    | some a =>
      if isNoneA a then
        if allowNone then .ok () else .error (.attrNone fullPath n)
      else
        match a with
        | .cls (some cc) =>
          if issubclassAny cc ts then .ok ()
          else .error (.attrNotSubclass fullPath n ts cc)
        | _ => .error (.attrNotClass fullPath n allowNone)

/-- Run the attribute checks in order, stopping at the first failure. -/
def runChecks (fullPath : String) (dt : DataType) :
    List AttrCheck → Except CheckErr Unit
  | [] => .ok ()
  | c :: rest => do
    runCheck fullPath dt c
    runChecks fullPath dt rest

/-- The display name a node contributes to the dotted error path:
its `name` attribute when present and non-empty, else its class name. -/
def nameForPath (dt : DataType) : String :=
  match dt with
  | .arrayDT _ _ (some s) _ => if s = "" then className dt else s
  | .structureDT _ (some s) _ => if s = "" then className dt else s
  | _ => className dt

/-- `find_duplicate_fields`: the field names that occur more than once,
listed with multiplicity in declaration order. -/
def duplicateFieldNames (fs : List FieldT) : List String :=
  let names := fs.map FieldT.name0
  names.filter (fun n => 1 < names.count n)

mutual
/-- `_check_data_type(data_type, parent_path)`: the validator.  Runs the
generic attribute checks for the node's variant, then recurses into an
`Array`'s element type or a `Structure`'s field types (each field path
extended with the field name), and finally rejects duplicate field
names.  `.ok ()` models a silent return, `.error e` a raised exception. -/
def checkDataType (dt : DataType) (parentPath : String) : Except CheckErr Unit := do
  let name := nameForPath dt
  let fullPath := if parentPath = "" then name else parentPath ++ "." ++ name
  runChecks fullPath dt (typeAttributeChecks dt)
  match dt with
  | .arrayDT et _ _ _ => checkDataType et fullPath
  | .structureDT fs _ _ => do
    checkFields fs fullPath
    let dups := duplicateFieldNames fs
    if dups.isEmpty then .ok () else .error (.duplicateFields dups)
  | _ => .ok ()

/-- The per-field loop of `_check_data_type` for a `Structure`: each
field's type is validated under the path extended with the field name.
(The field-tuple shape checks always pass on the embedded domain.) -/
def checkFields (fs : List FieldT) (fullPath : String) : Except CheckErr Unit :=
  match fs with
  | [] => .ok ()
  | .mk2 n t :: rest => do
    checkDataType t (fullPath ++ "." ++ n)
    checkFields rest fullPath
  | .mk3 n t _ :: rest => do
    checkDataType t (fullPath ++ "." ++ n)
    checkFields rest fullPath
end

mutual
/-- `_consolidate(data_type)`: atomic nodes pass through, an `Array`'s
element type is consolidated recursively, and a `Structure`'s fields are
each rebuilt as a canonical `Field` 3-tuple (`read_only` filled in from
the `Field` default `False` when absent) with a consolidated type. -/
def consolidate : DataType → DataType
  | .boolDT d v => .boolDT d v
  | .objectDT d v => .objectDT d v
  | .numberDT t d v => .numberDT t d v
  | .stringDT l d v => .stringDT l d v
  | .unicodeDT l d v => .unicodeDT l d v
  | .arrayDT et sh n v => .arrayDT (consolidate et) sh n v
  | .structureDT fs n v => .structureDT (consolidateFields fs) n v

/-- The field tuple of `_consolidate`'s `Structure` branch. -/
def consolidateFields : List FieldT → List FieldT
  | [] => []
  | .mk2 n t :: rest => .mk3 n (consolidate t) false :: consolidateFields rest
  | .mk3 n t ro :: rest => .mk3 n (consolidate t) ro :: consolidateFields rest
end

/-- A NumPy `dtype` description as `_resolve_dtype` builds it: a scalar
type, a `(type, length)` pair for the flexible string types, a
`(element dtype, shape)` pair for arrays (the shape kept as the Python
value the source puts there), or a list of `(name, dtype)` pairs. -/
inductive Dtype where
  | atom (c : PyClass)
  | flex (c : PyClass) (length : PyVal)
  | sub (elem : Dtype) (shape : PyVal)
  | record (fields : List (String × Dtype))

/-- The `_PREDEFINED_ATOMIC_NUMPY_TYPES` table; `Option.none` models the
`KeyError` for a variant that is not a key. -/
def predefinedAtomicNumpyType : DataType → Option PyClass
  | .boolDT _ _ => some .npBool
  | .objectDT _ _ => some .npObject
  | .stringDT _ _ _ => some .npString
  | .unicodeDT _ _ _ => some .npUnicode
  | _ => Option.none

/-- `_get_atomic_dtype`: a `Number`'s own `type` attribute when present,
else the predefined NumPy type of the variant.  `Option.none` models an
uncaught exception (a `Number` whose `type` is `None`). -/
def getAtomicDtype (dt : DataType) : Option PyClass :=
  match dt with
  | .numberDT (some c) _ _ => some c
  | _ => predefinedAtomicNumpyType dt

/-- The single-dimension collapse in `_resolve_dtype`'s `Array` branch:
a one-element tuple shape is replaced by its bare element. -/
def collapseShape : PyVal → PyVal
  | .tup [x] => x
  | s => s

mutual
/-- `_resolve_dtype(data_type)`: fixed atomics map to their atomic NumPy
type, flexible atomics pair it with the length, arrays pair the element
dtype with the (possibly collapsed) shape, and structures list the
`(field name, field dtype)` pairs in order.  `Option.none` models an
uncaught exception (a `Number` without a `type`, or a raw 2-tuple field
whose `name` attribute access fails). -/
def resolveDtype : DataType → Option Dtype
  | .boolDT d v => (getAtomicDtype (.boolDT d v)).map .atom
  | .objectDT d v => (getAtomicDtype (.objectDT d v)).map .atom
  | .numberDT t d v => (getAtomicDtype (.numberDT t d v)).map .atom
  | .stringDT l d v => (getAtomicDtype (.stringDT l d v)).map (fun c => .flex c l)
  | .unicodeDT l d v => (getAtomicDtype (.unicodeDT l d v)).map (fun c => .flex c l)
  | .arrayDT et sh _ _ => (resolveDtype et).map (fun e => .sub e (collapseShape sh))
  | .structureDT fs _ _ => (resolveDtypeFields fs).map .record

/-- The per-field list of `_resolve_dtype`'s `Structure` branch.  A raw
2-tuple field has no `name` attribute, so reaching one is an uncaught
`AttributeError` (`Option.none`); `resolve` always consolidates first. -/
def resolveDtypeFields : List FieldT → Option (List (String × Dtype))
  | [] => some []
  | .mk2 _ _ :: _ => Option.none
  | .mk3 n t _ :: rest => do
    let d ← resolveDtype t
    let ds ← resolveDtypeFields rest
    pure ((n, d) :: ds)
end

/-- The state threaded through one `copy.deepcopy` call: the next fresh
object identity, and the memo mapping already-copied list identities to
their copies (so sharing inside one value is preserved, as `deepcopy`
guarantees via its memo dictionary). -/
abbrev CopySt := Nat × List (Nat × Nat)

mutual
/-- One `copy.deepcopy` traversal: mutable lists get a fresh identity
(recorded in the memo before their elements are copied, matching
`deepcopy`'s order), already-seen lists reuse their memoized identity,
and immutable structure is rebuilt around copied children. -/
def deepcopyV : PyVal → CopySt → PyVal × CopySt
  | .list i es, st =>
    match st.2.lookup i with
    | some j =>
      let r := deepcopyL es st
      (.list j r.1, r.2)
    | Option.none =>
      let f := st.1
      let r := deepcopyL es (f + 1, (i, f) :: st.2)
      (.list f r.1, r.2)
  | .tup es, st =>
    let r := deepcopyL es st
    (.tup r.1, r.2)
  | .ntuple n fns vs, st =>
    let r := deepcopyL vs st
    (.ntuple n fns r.1, r.2)
  | .scalar c a, st =>
    let r := deepcopyV a st
    (.scalar c r.1, r.2)
  | v, st => (v, st)

/-- Element-wise deep copy of a sequence, left to right. -/
def deepcopyL : List PyVal → CopySt → List PyVal × CopySt
  | [], st => ([], st)
  | v :: vs, st =>
    let r := deepcopyV v st
    let rs := deepcopyL vs r.2
    (r.1 :: rs.1, rs.2)
end

/-- `copy.deepcopy(value)`: a fresh call starts with an empty memo; only
the identity counter survives the call. -/
def deepcopy (v : PyVal) (c : Nat) : PyVal × Nat :=
  let r := deepcopyV v (c, [])
  (r.1, r.2.1)

/-- The `length` independent deep copies made by one repetition level of
`_resolve_default`'s `Array` branch (the generator runs left to right,
each element from its own `copy.deepcopy` call). -/
def deepcopies (v : PyVal) : Nat → Nat → List PyVal × Nat
  | 0, c => ([], c)
  | k + 1, c =>
    let r := deepcopy v c
    let rs := deepcopies v k r.2
    (r.1 :: rs.1, rs.2)

/-- Wrap one repetition level in `Sequence`: a tuple, or, when
listifying, a mutable list (which is a new object with an identity). -/
def mkSequence (listify : Bool) (es : List PyVal) (c : Nat) : PyVal × Nat :=
  if listify then (.list c es, c + 1) else (.tup es, c)

/-- `range(length)`'s element count for one shape entry: `int` (and its
subclass `bool`) are accepted, anything else raises `TypeError`
(`Option.none`); `range` of a negative count is empty. -/
def rangeLen : PyVal → Option Nat
  | .int n => some n.toNat
  | .bool b => some (if b then 1 else 0)
  | _ => Option.none

/-- The iterable the `functools.reduce` over the shape runs through:
an `int` shape is first wrapped into a one-element tuple, tuple and list
shapes yield their entries, a named tuple its values.  Other values are
not iterable (`TypeError`, modeled `Option.none`; the exotic iterable
`str` / `bytes` shapes, which the source would iterate character-wise,
are outside the modeled domain). -/
def shapeItems : PyVal → Option (List PyVal)
  | .int n => some [.int n]
  | .bool b => some [.bool b]
  | .tup es => some es
  | .list _ es => some es
  | .ntuple _ _ vs => some vs
  | _ => Option.none

/-- One step of the `functools.reduce` in `_resolve_default`'s `Array`
branch: `Sequence(copy.deepcopy(default) for _ in range(length))`. -/
def repeatStep (listify : Bool) (acc : PyVal × Nat) (lenV : PyVal) :
    Option (PyVal × Nat) :=
  match rangeLen lenV with
  | Option.none => Option.none
  | some k =>
    let r := deepcopies acc.1 k acc.2
    some (mkSequence listify r.1 r.2)

/-- Insertion into a `collections.OrderedDict`: a repeated key keeps its
first position but takes the latest value. -/
def odInsert (acc : List (String × PyVal)) (k : String) (v : PyVal) :
    List (String × PyVal) :=
  if acc.any (fun p => p.1 == k) then
    acc.map (fun p => if p.1 == k then (k, v) else p)
  else acc ++ [(k, v)]

/-- Fold a `(name, value)` sequence through an `OrderedDict`. -/
def odOfPairs (ps : List (String × PyVal)) : List (String × PyVal) :=
  ps.foldl (fun acc p => odInsert acc p.1 p.2) []

/-- The display name of the named-tuple type `_resolve_default` creates
for a `Structure`. -/
def structDefaultName (n : Option String) : String :=
  match n with
  | some s => if s = "" then "StructureDefault" else "StructureDefault_" ++ s
  | Option.none => "StructureDefault"

mutual
/-- `_resolve_default(data_type, listify)`, threading the fresh-identity
counter.  Atomics coerce their default through the atomic NumPy type
except `Object`, whose default is returned as is (aliasing the schema's
own default object).  Arrays fold the element default through the shape
entries, deep-copying per element.  Structures build a named tuple over
an `OrderedDict` of per-field defaults (or a plain list when
listifying).  `Option.none` models an uncaught exception. -/
def resolveDefault (dt : DataType) (listify : Bool) (c : Nat) :
    Option (PyVal × Nat) :=
  match dt with
  | .objectDT d _ => some (d, c)
  | .boolDT d v => (getAtomicDtype (.boolDT d v)).map (fun cl => (.scalar cl d, c))
  | .numberDT t d v =>
    (getAtomicDtype (.numberDT t d v)).map (fun cl => (.scalar cl d, c))
  | .stringDT l d v =>
    (getAtomicDtype (.stringDT l d v)).map (fun cl => (.scalar cl d, c))
  | .unicodeDT l d v =>
    (getAtomicDtype (.unicodeDT l d v)).map (fun cl => (.scalar cl d, c))
  | .arrayDT et sh _ _ => do
    let ed ← resolveDefault et listify c
    let items ← shapeItems sh
    items.foldlM (repeatStep listify) ed
  | .structureDT fs n _ =>
    if listify then
      match resolveDefaultFields fs listify c with
      | Option.none => Option.none
      | some (ps, c2) => some (.list c2 (ps.map Prod.snd), c2 + 1)
    else
      match resolveDefaultFields fs listify c with
      | Option.none => Option.none
      | some (ps, c2) =>
        let od := odOfPairs ps
        some (.ntuple (structDefaultName n) (od.map Prod.fst) (od.map Prod.snd), c2)

/-- The per-field defaults of a `Structure`, in declaration order.  As in
`_resolve_dtype`, a raw 2-tuple field has no `type` attribute
(`Option.none` models the `AttributeError`). -/
def resolveDefaultFields (fs : List FieldT) (listify : Bool) (c : Nat) :
    Option (List (String × PyVal) × Nat) :=
  match fs with
  | [] => some ([], c)
  | .mk2 _ _ :: _ => Option.none
  | .mk3 n t _ :: rest => do
    let r ← resolveDefault t listify c
    let rs ← resolveDefaultFields rest listify r.2
    pure ((n, r.1) :: rs.1, rs.2)
end

/-- Which array-view mixin `_define_array_view` selects. -/
inductive Strategy where
  | direct
  | indirectAtomic
  | indirectComposite
  deriving DecidableEq

mutual
/-- A view class as `_resolve_view` produces it: the caller's own class
(total override), or a type synthesized by `_define_array_view` /
`_define_structure_view`, described by its display name and the data
that determine its attribute dictionary. -/
inductive ViewType where
  | custom (c : PyClass)
  | arrayView (name : String) (strategy : Strategy) (elementView : Option ViewType)
  | structView (name : String) (fieldNames : List String) (props : List PropDef)

/-- One synthesized structure-view property: its name, the field index
the getter reads, the wrapping the getter applies, and whether a setter
exists (`read_only` fields get none). -/
inductive PropDef where
  | mk (name : String) (index : Nat) (getter : GetterKind) (hasSetter : Bool)

/-- How a structure-view property getter produces its value: the raw
cell, a two-argument atomic wrap `view(data, index)`, or a one-argument
composite wrap `view(data[index])`. -/
inductive GetterKind where
  | direct
  | atomicWrap (ev : ViewType)
  | compositeWrap (ev : ViewType)
end

/-- The property name of a synthesized structure-view property. -/
def PropDef.pname : PropDef → String
  | .mk n _ _ _ => n

/-- The display name `_define_array_view` / `_define_structure_view`
give a synthesized type: the node's name when present and non-empty,
else the generic fallback. -/
def displayName (n : Option String) (fallback : String) : String :=
  match n with
  | some s => if s = "" then fallback else s
  | Option.none => fallback

mutual
/-- `_resolve_view(data_type)`: a declared `view` attribute is returned
unchanged; atomic nodes have no view; `Array` and `Structure` nodes get
a synthesized type.  The outer `Option` models an uncaught exception
(raw 2-tuple fields), the inner one Python `None`. -/
def resolveView (dt : DataType) : Option (Option ViewType) :=
  match dt with
  | .boolDT _ (some c) => some (some (.custom c))
  | .objectDT _ (some c) => some (some (.custom c))
  | .numberDT _ _ (some c) => some (some (.custom c))
  | .stringDT _ _ (some c) => some (some (.custom c))
  | .unicodeDT _ _ (some c) => some (some (.custom c))
  | .arrayDT _ _ _ (some c) => some (some (.custom c))
  | .structureDT _ _ (some c) => some (some (.custom c))
  | .boolDT _ Option.none => some Option.none
  | .objectDT _ Option.none => some Option.none
  | .numberDT _ _ Option.none => some Option.none
  | .stringDT _ _ Option.none => some Option.none
  | .unicodeDT _ _ Option.none => some Option.none
  | .arrayDT et _ n Option.none =>
    match resolveView et with
    | Option.none => Option.none
    | some ev =>
      let name := displayName n "ArrayView"
      match ev with
      | Option.none => some (some (.arrayView name .direct Option.none))
      | some evv =>
        if isAtomic et then some (some (.arrayView name .indirectAtomic (some evv)))
        else some (some (.arrayView name .indirectComposite (some evv)))
  | .structureDT fs n Option.none =>
    match namesOfFields fs, structProps fs 0 with
    | some fns, some props =>
      some (some (.structView (displayName n "StructureView") fns props))
    | _, _ => Option.none

/-- `tuple(field.name for field in fields)` (the `_fields` attribute of
a synthesized structure view); a raw 2-tuple has no `name` attribute. -/
def namesOfFields : List FieldT → Option (List String)
  | [] => some []
  | .mk2 _ _ :: _ => Option.none
  | .mk3 n _ _ :: rest => (namesOfFields rest).map (fun ns => n :: ns)

/-- The per-field properties `_define_structure_view` installs, with
their indices: getter wrapping chosen from the field view and whether
the field type is atomic; no setter for `read_only` fields. -/
def structProps (fs : List FieldT) (i : Nat) : Option (List PropDef) :=
  match fs with
  | [] => some []
  | .mk2 _ _ :: _ => Option.none
  | .mk3 n t ro :: rest =>
    match resolveView t with
    | Option.none => Option.none
    | some fv =>
      let getter :=
        match fv with
        | Option.none => GetterKind.direct
        | some v => if isAtomic t then GetterKind.atomicWrap v else .compositeWrap v
      (structProps rest (i + 1)).map (fun ps => .mk n i getter (!ro) :: ps)
end

/-- `_MIXIN_ATTRIBUTES[_DirectArrayViewMixin]`. -/
def directArrayViewMixinAttrs : List String :=
  ["__slots__", "__init__", "__str__", "__getitem__", "__setitem__", "__iter__",
    "__len__", "__contains__"]

/-- `_MIXIN_ATTRIBUTES[_IndirectAtomicArrayViewMixin]`. -/
def indirectAtomicArrayViewMixinAttrs : List String :=
  ["__slots__", "__init__", "__str__", "__getitem__", "__setitem__", "__iter__",
    "__len__", "__contains__"]

/-- `_MIXIN_ATTRIBUTES[_IndirectCompositeArrayViewMixin]`. -/
def indirectCompositeArrayViewMixinAttrs : List String :=
  ["__slots__", "__init__", "__str__", "__getitem__", "__setitem__", "__iter__",
    "__len__", "__contains__"]

/-- `_MIXIN_ATTRIBUTES[_StructuredViewMixin]`. -/
def structuredViewMixinAttrs : List String :=
  ["__slots__", "__init__", "__str__"]

/-- The mixin attribute names `_get_mixin_attributes` collects for an
array view of the given strategy. -/
def mixinAttrsFor : Strategy → List String
  | .direct => directArrayViewMixinAttrs
  | .indirectAtomic => indirectAtomicArrayViewMixinAttrs
  | .indirectComposite => indirectCompositeArrayViewMixinAttrs

/-- The attribute names of the dictionary passed to `type(name, (),
attributes)` for a synthesized view: the mixin attributes, plus
`_element_view` for the indirect array strategies, plus `_fields` and
one property per field for structure views.  A custom view class is not
synthesized and contributes nothing. -/
def viewAttrNames : ViewType → List String
  | .custom _ => []
  | .arrayView _ s _ =>
    mixinAttrsFor s ++
      (match s with
        | .direct => []
        | _ => ["_element_view"])
  | .structView _ _ props =>
    structuredViewMixinAttrs ++ ["_fields"] ++ props.map PropDef.pname

/-- Whether a view was dynamically synthesized by nani (as opposed to a
caller-supplied class returned unchanged). -/
def isSynthesized : ViewType → Bool
  | .custom _ => false
  | _ => true

/-- An argument in a Python method call on a view's buffer: a buffer
element, or the view object itself (which is not a buffer element). -/
inductive CallArg (α : Type) where
  | val (a : α)
  | selfRef

/-- The error a modeled buffer method can raise. -/
inductive ViewErr where
  | typeError
  deriving DecidableEq

/-- `numpy.ndarray.__contains__` as a callable bound method over the
modeled buffer: it accepts exactly one argument and reports whether the
item occurs among the buffer's elements; any other arity is a
`TypeError` before any element is inspected. -/
def ndarrayContainsCall {α : Type} [DecidableEq α] (data : List α)
    (args : List (CallArg α)) : Except ViewErr Bool :=
  match args with
  | [.val item] => .ok (decide (item ∈ data))
  | _ => .error .typeError

/-- `_DirectArrayViewMixin.__contains__`: `item in self._data`, which
calls the buffer's `__contains__` with the single argument `item`. -/
def directArrayContains {α : Type} [DecidableEq α] (data : List α) (item : α) :
    Except ViewErr Bool :=
  ndarrayContainsCall data [.val item]

/-- `_IndirectAtomicArrayViewMixin.__contains__`: also
`item in self._data`. -/
def indirectAtomicArrayContains {α : Type} [DecidableEq α] (data : List α)
    (item : α) : Except ViewErr Bool :=
  ndarrayContainsCall data [.val item]

/-- `_IndirectCompositeArrayViewMixin.__contains__`:
`self._data.__contains__(self, item)` — the bound method is called with
the two arguments `self` and `item`. -/
def indirectCompositeArrayContains {α : Type} [DecidableEq α] (data : List α)
    (item : α) : Except ViewErr Bool :=
  ndarrayContainsCall data [.selfRef, .val item]

/-- Pop one keyword from a keyword-argument dictionary
(`kwds.pop(name, default)` inside `namedtuple._replace`): the looked-up
value, if any, and the dictionary without that key. -/
def popKw (kws : List (String × AttrVal)) (n : String) :
    Option AttrVal × List (String × AttrVal) :=
  (kws.lookup n, kws.eraseP (fun p => p.1 == n))

/-- Read an attribute value back as a plain Python value.  Placing a
value of a different attribute kind into the slot is outside the typed
embedding (`Option.none`). -/
def asPv : AttrVal → Option PyVal
  | .pv v => some v
  | _ => Option.none

/-- Read an attribute value back as a class object or `None`. -/
def asCls : AttrVal → Option (Option PyClass)
  | .cls c => some c
  | _ => Option.none

/-- Read an attribute value back as a nested data type. -/
def asDT : AttrVal → Option DataType
  | .elemDT d => some d
  | _ => Option.none

/-- Read an attribute value back as a field sequence. -/
def asFlds : AttrVal → Option (List FieldT)
  | .flds fs => some fs
  | _ => Option.none

/-- Read an attribute value back as an optional string (`name`). -/
def asOptStr : AttrVal → Option (Option String)
  | .pv .none => some Option.none
  | .pv (.str s) => some (some s)
  | _ => Option.none

/-- How `update` can fail: leftover keyword arguments that name no
attribute of the record (`ValueError` from `namedtuple._replace`), or an
override value outside the typed embedding of that slot. -/
inductive UpdateErr where
  | unexpectedFields (names : List String)
  | unrepresentable

/-- `update(data_type, **kwargs)`, which is `data_type._replace(**kwargs)`:
every attribute takes the popped keyword value when present, else its
current value, and any leftover keyword raises; the original record is
immutable and a new record is returned. -/
def update (dt : DataType) (kws : List (String × AttrVal)) :
    Except UpdateErr DataType :=
  match dt with
  | .boolDT d v =>
    let p1 := popKw kws "default"
    let p2 := popKw p1.2 "view"
    if p2.2.isEmpty then
      match asPv ((p1.1).getD (.pv d)), asCls ((p2.1).getD (.cls v)) with
      | some d2, some v2 => .ok (.boolDT d2 v2)
      | _, _ => .error .unrepresentable
    else .error (.unexpectedFields (p2.2.map Prod.fst))
  | .objectDT d v =>
    let p1 := popKw kws "default"
    let p2 := popKw p1.2 "view"
    if p2.2.isEmpty then
      match asPv ((p1.1).getD (.pv d)), asCls ((p2.1).getD (.cls v)) with
      | some d2, some v2 => .ok (.objectDT d2 v2)
      | _, _ => .error .unrepresentable
    else .error (.unexpectedFields (p2.2.map Prod.fst))
  | .numberDT t d v =>
    let p1 := popKw kws "type"
    let p2 := popKw p1.2 "default"
    let p3 := popKw p2.2 "view"
    if p3.2.isEmpty then
      match asCls ((p1.1).getD (.cls t)), asPv ((p2.1).getD (.pv d)),
          asCls ((p3.1).getD (.cls v)) with
      | some t2, some d2, some v2 => .ok (.numberDT t2 d2 v2)
      | _, _, _ => .error .unrepresentable
    else .error (.unexpectedFields (p3.2.map Prod.fst))
  | .stringDT l d v =>
    let p1 := popKw kws "length"
    let p2 := popKw p1.2 "default"
    let p3 := popKw p2.2 "view"
    if p3.2.isEmpty then
      match asPv ((p1.1).getD (.pv l)), asPv ((p2.1).getD (.pv d)),
          asCls ((p3.1).getD (.cls v)) with
      | some l2, some d2, some v2 => .ok (.stringDT l2 d2 v2)
      | _, _, _ => .error .unrepresentable
    else .error (.unexpectedFields (p3.2.map Prod.fst))
  | .unicodeDT l d v =>
    let p1 := popKw kws "length"
    let p2 := popKw p1.2 "default"
    let p3 := popKw p2.2 "view"
    if p3.2.isEmpty then
      match asPv ((p1.1).getD (.pv l)), asPv ((p2.1).getD (.pv d)),
          asCls ((p3.1).getD (.cls v)) with
      | some l2, some d2, some v2 => .ok (.unicodeDT l2 d2 v2)
      | _, _, _ => .error .unrepresentable
    else .error (.unexpectedFields (p3.2.map Prod.fst))
  | .arrayDT et sh n v =>
    let p1 := popKw kws "element_type"
    let p2 := popKw p1.2 "shape"
    let p3 := popKw p2.2 "name"
    let p4 := popKw p3.2 "view"
    if p4.2.isEmpty then
      match asDT ((p1.1).getD (.elemDT et)), asPv ((p2.1).getD (.pv sh)),
          asOptStr ((p3.1).getD (.pv (optStrToPy n))), asCls ((p4.1).getD (.cls v)) with
      | some et2, some sh2, some n2, some v2 => .ok (.arrayDT et2 sh2 n2 v2)
      | _, _, _, _ => .error .unrepresentable
    else .error (.unexpectedFields (p4.2.map Prod.fst))
  | .structureDT fs n v =>
    let p1 := popKw kws "fields"
    let p2 := popKw p1.2 "name"
    let p3 := popKw p2.2 "view"
    if p3.2.isEmpty then
      match asFlds ((p1.1).getD (.flds fs)), asOptStr ((p2.1).getD (.pv (optStrToPy n))),
          asCls ((p3.1).getD (.cls v)) with
      | some fs2, some n2, some v2 => .ok (.structureDT fs2 n2 v2)
      | _, _, _ => .error .unrepresentable
    else .error (.unexpectedFields (p3.2.map Prod.fst))

mutual
/-- The identities of all mutable (list) objects reachable inside a
value, in traversal order. -/
def pyIds : PyVal → List Nat
  | .list i es => i :: pyIdsL es
  | .tup es => pyIdsL es
  | .ntuple _ _ vs => pyIdsL vs
  | .scalar _ a => pyIds a
  | _ => []

/-- The reachable list identities of a sequence of values. -/
def pyIdsL : List PyVal → List Nat
  | [] => []
  | v :: vs => pyIds v ++ pyIdsL vs
end

mutual
/-- Mutate the list object with the given identity wherever it is
reachable in a value (a Python mutation through any alias is observed
by every alias, here: every occurrence of the identity), applying `f`
to its elements. -/
def mutateAt (id : Nat) (f : List PyVal → List PyVal) : PyVal → PyVal
  | .list j es =>
    let es2 := mutateAtL id f es
    if j = id then .list j (f es2) else .list j es2
  | .tup es => .tup (mutateAtL id f es)
  | .ntuple n fns vs => .ntuple n fns (mutateAtL id f vs)
  | .scalar c a => .scalar c (mutateAt id f a)
  | v => v

/-- `mutateAt` over a sequence of values. -/
def mutateAtL (id : Nat) (f : List PyVal → List PyVal) : List PyVal → List PyVal
  | [] => []
  | v :: vs => mutateAt id f v :: mutateAtL id f vs
end

mutual
/-- The documented validation `numpy.dtype` performs on a structured
dtype that is relevant here: at every nesting level, the field names of
a record must be distinct (`numpy.dtype` raises `ValueError` for a
field that occurs more than once).  This models the external array
library, which the core hands its layout descriptor to. -/
def numpyDtypeOk : Dtype → Bool
  | .atom _ => true
  | .flex _ _ => true
  | .sub e _ => numpyDtypeOk e
  | .record fs => ((fs.map Prod.fst).Nodup : Bool) && numpyDtypeOkFields fs

/-- `numpyDtypeOk` over the fields of a record dtype. -/
def numpyDtypeOkFields : List (String × Dtype) → Bool
  | [] => true
  | (_, d) :: rest => numpyDtypeOk d && numpyDtypeOkFields rest
end

/-- The result triple of `resolve`: the `Nani` named tuple holding the
dtype, the default value and the view type (the latter `None` only if a
caller passed an explicit `None`-less atomic, which the wrapping array
prevents). -/
inductive NaniOut where
  | mk (dtype : Dtype) (default : PyVal) (view : Option ViewType)

/-- How `resolve` can fail: a validation error from `_check_data_type`,
the external `numpy.dtype` call rejecting the layout (duplicate field
names), or a modeled uncaught exception inside a resolver. -/
inductive ResolveErr where
  | validation (e : CheckErr)
  | numpyDtypeError
  | resolutionError

/-- `resolve(data_type, name, listify_default, check)`: validate if
`check` is set, consolidate once, then build the dtype (handed to the
external `numpy.dtype`), the default value and the view — the latter for
an implicit enclosing `Array` of sentinel shape `-1` carrying the
requested name.  The argument evaluation order of the `Nani(...)` call
(dtype, then default, then view) is preserved. -/
def resolve (dt : DataType) (name : Option String) (listifyDefault : Bool)
    (check : Bool) : Except ResolveErr NaniOut := do
  if check then
    match checkDataType dt "" with
    | .error e => Except.error (.validation e)
    | .ok () => pure ()
  else pure ()
  let dt2 := consolidate dt
  let d ←
    match resolveDtype dt2 with
    | some d => pure d
    | Option.none => Except.error .resolutionError
  if numpyDtypeOk d then pure () else Except.error .numpyDtypeError
  let dflt ←
    match resolveDefault dt2 listifyDefault 0 with
    | some p => pure p.1
    | Option.none => Except.error .resolutionError
  let v ←
    match resolveView (.arrayDT dt2 (.int (-1)) name Option.none) with
    | some v => pure v
    | Option.none => Except.error .resolutionError
  pure (.mk d dflt v)

/-- Whether a `resolve` outcome is a raised validation error (used to
state that `check=False` skips validation entirely). -/
def isValidationError : Except ResolveErr NaniOut → Bool
  | .error (.validation _) => true
  | _ => false

/-- The copied identities recorded in a deep-copy memo. -/
def memoVals (m : List (Nat × Nat)) : List Nat :=
  m.map Prod.snd

/-- A structure's declared field names avoid the equality dunder names
(only relevant because a synthesized structure view installs one
property per field name, so a field literally called `__eq__` would
install an attribute of that name). -/
def structFieldNamesOk : DataType → Prop
  | .structureDT fs _ _ =>
    ∀ f ∈ fs, FieldT.name0 f ≠ "__eq__" ∧ FieldT.name0 f ≠ "__ne__"
  | _ => True

/-!
Theorems.  Each claim of the specification is settled by one theorem
below (with a witness where the theorem carries hypotheses, and a
counterexample where the claim as stated fails on the code).
-/

mutual
/-- Consolidation is idempotent on every data type (helper, proved by
mutual structural induction with the field version). -/
theorem consolidate_consolidate (t : DataType) :
    consolidate (consolidate t) = consolidate t := by
  cases t with
  | boolDT d v => rfl
  | objectDT d v => rfl
  | numberDT t d v => rfl
  | stringDT l d v => rfl
  | unicodeDT l d v => rfl
  | arrayDT et sh n v => simp [consolidate, consolidate_consolidate et]
  | structureDT fs n v => simp [consolidate, consolidateFields_consolidateFields fs]

/-- Field-list version of `consolidate_consolidate`. -/
theorem consolidateFields_consolidateFields (fs : List FieldT) :
    consolidateFields (consolidateFields fs) = consolidateFields fs := by
  cases fs with
  | nil => rfl
  | cons f rest =>
    cases f with
    | mk2 n t =>
      simp [consolidateFields, consolidate_consolidate t,
        consolidateFields_consolidateFields rest]
    | mk3 n t ro =>
      simp [consolidateFields, consolidate_consolidate t,
        consolidateFields_consolidateFields rest]
end

/-- C6: consolidation is idempotent: for every schema tree `T`,
`consolidate(consolidate(T)) = consolidate(T)` — consolidating an
already-consolidated tree yields an identical tree.  (Proved for all
trees of the embedded domain; well-formedness is not even needed.) -/
theorem c6_consolidate_idempotent (t : DataType) :
    consolidate (consolidate t) = consolidate t :=
  consolidate_consolidate t

/-- C7: resolving the layout of an `Array` whose element type is an
`Array` of `E` with shape `(n,)` yields the same layout as with the
bare integer shape `n` for the inner array, whatever the outer shape,
names and views: the one-element tuple shape is collapsed to the bare
integer before being paired with the element layout. -/
theorem c7_layout_shape_collapse (E : DataType) (n : Int) (sh : PyVal)
    (nm2 nm : Option String) (vw2 vw : Option PyClass) :
    resolveDtype (.arrayDT (.arrayDT E (.tup [.int n]) nm2 vw2) sh nm vw) =
      resolveDtype (.arrayDT (.arrayDT E (.int n) nm2 vw2) sh nm vw) := by
  simp [resolveDtype, collapseShape]

/-- C1: evaluating the default resolver at an `Array` of shape `(2, 3)`
over a `Number` element: the left fold of `functools.reduce` over the
shape applies the first dimension first, so the scalar default is
repeated into 2 copies forming a row and that row is repeated into 3
copies — the outer sequence has length 3 and every entry has length 2,
the transpose of the declared shape (and of what the produced dtype
requires), contradicting the claimed outer length 2 / entry length 3. -/
theorem c1_default_fold_transposed :
    resolveDefault
        (.arrayDT (.numberDT (some .npFloat64) (.int 0) Option.none)
          (.tup [.int 2, .int 3]) Option.none Option.none)
        false 0 =
      some
        (.tup
          [.tup [.scalar .npFloat64 (.int 0), .scalar .npFloat64 (.int 0)],
            .tup [.scalar .npFloat64 (.int 0), .scalar .npFloat64 (.int 0)],
            .tup [.scalar .npFloat64 (.int 0), .scalar .npFloat64 (.int 0)]],
          0) := by
  rfl

/-- C4 counterexample: the claim says validating a `Number` node whose
`type` attribute is the host language's `bool` raises an error, but the
validator accepts it silently: `bool` is a subclass of `int`, which the
`numbers` ABC registry makes a `numbers.Number`, and the check is
exactly `issubclass(type, (numbers.Number, numpy.number))`. -/
theorem c4_counterexample_bool_type_accepted :
    checkDataType (.numberDT (some .pyBool) (.int 0) Option.none) "" =
      .ok () := by
  rfl

/-- Every class is a subclass of `object` (helper). -/
theorem issubclass_object (c : PyClass) : issubclassAny c [.objectCls] = true := by
  cases c <;> rfl

/-- C4 amended: the validator rejects a `Number` whose `type` is one of
NumPy's boolean, opaque-object or string kinds (`numpy.bool_`,
`numpy.object_`, `numpy.string_`, `numpy.unicode_` are not subclasses
of `numbers.Number` or `numpy.number`), whatever the other attributes
hold, but it accepts the host language's `bool`, which is a
`numbers.Number` through `int`. -/
theorem c4_amended_numeric_kind_check :
    (∀ (d : PyVal) (v : Option PyClass),
        checkDataType (.numberDT (some .npBool) d v) "" =
          .error (.attrNotSubclass "Number" "type" numberTypes .npBool)) ∧
      (∀ (d : PyVal) (v : Option PyClass),
        checkDataType (.numberDT (some .npObject) d v) "" =
          .error (.attrNotSubclass "Number" "type" numberTypes .npObject)) ∧
      (∀ (d : PyVal) (v : Option PyClass),
        checkDataType (.numberDT (some .npString) d v) "" =
          .error (.attrNotSubclass "Number" "type" numberTypes .npString)) ∧
      (∀ (d : PyVal) (v : Option PyClass),
        checkDataType (.numberDT (some .npUnicode) d v) "" =
          .error (.attrNotSubclass "Number" "type" numberTypes .npUnicode)) ∧
      (∀ (v : Option PyClass),
        checkDataType (.numberDT (some .pyBool) (.int 0) v) "" = .ok ()) := by
  refine ⟨fun d v => rfl, fun d v => rfl, fun d v => rfl, fun d v => rfl, fun v => ?_⟩
  cases v with
  | none => rfl
  | some c => cases c <;> rfl

/-- C5 counterexample: the claim says validation raises for an `Array`
whose tuple shape contains an entry that is not a non-negative integer,
but a tuple shape containing a string passes validation: the shape
check is only `isinstance(shape, (int, tuple))` and never inspects the
entries. -/
theorem c5_counterexample_string_entry_accepted :
    checkDataType
        (.arrayDT (.boolDT (.bool false) Option.none) (.tup [.str "a"])
          Option.none Option.none) "" =
      .ok () := by
  rfl

/-- C5 amended: the validator accepts any `int` shape and any tuple
shape whatever the entries are (strings and negative integers
included), and rejects exactly the shapes that are neither `int` nor
`tuple` (with `None` reported through its own message). -/
theorem c5_amended_shape_check_shallow :
    (∀ (entries : List PyVal),
        checkDataType
            (.arrayDT (.boolDT (.bool false) Option.none) (.tup entries)
              Option.none Option.none) "" =
          .ok ()) ∧
      (∀ (n : Int),
        checkDataType
            (.arrayDT (.boolDT (.bool false) Option.none) (.int n)
              Option.none Option.none) "" =
          .ok ()) ∧
      checkDataType
          (.arrayDT (.boolDT (.bool false) Option.none) (.str "abc")
            Option.none Option.none) "" =
        .error (.attrNotInstance "Array" "shape" shapeTypes .pyStr) ∧
      checkDataType
          (.arrayDT (.boolDT (.bool false) Option.none) .none
            Option.none Option.none) "" =
        .error (.attrNone "Array" "shape") := by
  exact ⟨fun entries => rfl, fun n => rfl, rfl, rfl⟩

/-- C2 counterexample: the claim says every synthesized view type
implements structural equality and inequality over the underlying
buffer, but the attribute dictionary of a synthesized direct-strategy
array view consists of the mixin attributes only, and none of the
mixins defines `__eq__` or `__ne__`: comparison falls back to the host
default (identity), and comparing against a foreign type returns
unequal instead of signaling "not comparable". -/
theorem c2_counterexample_no_equality_methods :
    resolveView
        (.arrayDT (.numberDT (some .npFloat64) (.int 0) Option.none) (.int 2)
          Option.none Option.none) =
      some (some (.arrayView "ArrayView" .direct Option.none)) ∧
      (viewAttrNames (.arrayView "ArrayView" .direct Option.none)).contains "__eq__" =
        false ∧
      (viewAttrNames (.arrayView "ArrayView" .direct Option.none)).contains "__ne__" =
        false := by
  exact ⟨rfl, by decide, by decide⟩

/-- Every property of a synthesized structure view is named after one of
the structure's fields (helper). -/
theorem structProps_names (fs : List FieldT) (i : Nat) (ps : List PropDef)
    (h : structProps fs i = some ps) :
    ∀ p ∈ ps, ∃ f ∈ fs, FieldT.name0 f = PropDef.pname p := by
  induction fs generalizing i ps with
  | nil =>
    simp [structProps] at h
    simp [h]
  | cons f rest ih =>
    cases f with
    | mk2 n t => simp [structProps] at h
    | mk3 n t ro =>
      rw [structProps] at h
      cases hv : resolveView t with
      | none => rw [hv] at h; exact absurd h (by simp)
      | some fv =>
        rw [hv] at h
        cases hr : structProps rest (i + 1) with
        | none => rw [hr] at h; exact absurd h (by simp)
        | some ps2 =>
          rw [hr] at h
          simp at h
          intro p hp
          rw [h.symm] at hp
          rcases List.mem_cons.mp hp with h1 | h2
          · exact ⟨.mk3 n t ro, List.mem_cons_self _ _,
              by simp [h1, FieldT.name0, PropDef.pname]⟩
          · rcases ih (i + 1) ps2 hr p h2 with ⟨f2, hf2, hn2⟩
            exact ⟨f2, List.mem_cons_of_mem _ hf2, hn2⟩

/-- C2 amended: no dynamically synthesized view type defines `__eq__` or
`__ne__`: the attribute dictionary of a synthesized array view is the
mixin attribute set (plus `_element_view` for the indirect strategies),
and that of a synthesized structure view is the mixin attribute set
plus `_fields` and one property per field — so as long as no field is
literally named `__eq__` / `__ne__`, no equality attribute exists and
comparison is the host default rather than buffer comparison. -/
theorem c2_amended_no_equality_attribute (dt : DataType) (v : ViewType)
    (h1 : structFieldNamesOk dt) (h2 : resolveView dt = some (some v))
    (h3 : isSynthesized v = true) :
    (viewAttrNames v).contains "__eq__" = false ∧
      (viewAttrNames v).contains "__ne__" = false := by
  have hmain : "__eq__" ∉ viewAttrNames v ∧ "__ne__" ∉ viewAttrNames v := ?_
  · exact ⟨by simpa using hmain.1, by simpa using hmain.2⟩
  cases dt with
  | boolDT d vw =>
    cases vw with
    | none => simp [resolveView] at h2
    | some c => simp [resolveView] at h2; simp [h2.symm, isSynthesized] at h3
  | objectDT d vw =>
    cases vw with
    | none => simp [resolveView] at h2
    | some c => simp [resolveView] at h2; simp [h2.symm, isSynthesized] at h3
  | numberDT t d vw =>
    cases vw with
    | none => simp [resolveView] at h2
    | some c => simp [resolveView] at h2; simp [h2.symm, isSynthesized] at h3
  | stringDT l d vw =>
    cases vw with
    | none => simp [resolveView] at h2
    | some c => simp [resolveView] at h2; simp [h2.symm, isSynthesized] at h3
  | unicodeDT l d vw =>
    cases vw with
    | none => simp [resolveView] at h2
    | some c => simp [resolveView] at h2; simp [h2.symm, isSynthesized] at h3
  | arrayDT et sh n vw =>
    cases vw with
    | some c => simp [resolveView] at h2; simp [h2.symm, isSynthesized] at h3
    | none =>
      rw [resolveView] at h2
      cases hv : resolveView et with
      | none => rw [hv] at h2; exact absurd h2 (by simp)
      | some ev =>
        rw [hv] at h2
        cases ev with
        | none =>
          simp at h2
          simp [h2.symm, viewAttrNames, mixinAttrsFor, directArrayViewMixinAttrs]
        | some evv =>
          by_cases ha : isAtomic et = true
          · simp [ha] at h2
            simp [h2.symm, viewAttrNames, mixinAttrsFor,
              indirectAtomicArrayViewMixinAttrs]
          · simp [ha] at h2
            simp [h2.symm, viewAttrNames, mixinAttrsFor,
              indirectCompositeArrayViewMixinAttrs]
  | structureDT fs n vw =>
    cases vw with
    | some c => simp [resolveView] at h2; simp [h2.symm, isSynthesized] at h3
    | none =>
      rw [resolveView] at h2
      cases hn : namesOfFields fs with
      | none => rw [hn] at h2; exact absurd h2 (by simp)
      | some fns =>
        rw [hn] at h2
        cases hp : structProps fs 0 with
        | none => rw [hp] at h2; exact absurd h2 (by simp)
        | some props =>
          rw [hp] at h2
          simp at h2
          have hnames := structProps_names fs 0 props hp
          rw [h2.symm]
          refine ⟨fun hmem => ?_, fun hmem => ?_⟩
          · simp [viewAttrNames, structuredViewMixinAttrs] at hmem
            rcases hmem with ⟨p, hp2, hpn⟩
            rcases hnames p hp2 with ⟨f, hf, hfn⟩
            exact (h1 f hf).1 (hfn.trans hpn)
          · simp [viewAttrNames, structuredViewMixinAttrs] at hmem
            rcases hmem with ⟨p, hp2, hpn⟩
            rcases hnames p hp2 with ⟨f, hf, hfn⟩
            exact (h1 f hf).2 (hfn.trans hpn)

/-- C2 amended witness: a concrete structure schema with one ordinary
field resolves to a synthesized structure view without equality
attributes. -/
theorem c2_amended_no_equality_attribute_witness :
    (viewAttrNames
          (.structView "P" ["mass"] [.mk "mass" 0 .direct true])).contains "__eq__" =
        false ∧
      (viewAttrNames
          (.structView "P" ["mass"] [.mk "mass" 0 .direct true])).contains "__ne__" =
        false :=
  c2_amended_no_equality_attribute
    (.structureDT [.mk3 "mass" (.numberDT (some .npFloat32) (.int 0) Option.none) false]
      (some "P") Option.none)
    (.structView "P" ["mass"] [.mk "mass" 0 .direct true])
    (by simp [structFieldNamesOk, FieldT.name0]) rfl rfl

/-- C3: the membership test of the indirect-composite array-view mixin
raises on every buffer and item: `self._data.__contains__(self, item)`
passes two arguments to the buffer's one-argument bound `__contains__`
method, a `TypeError` before any element is inspected.  The second
conjunct shows the indirect-composite strategy is what an `Array` whose
element type is a named composite (here an inner `Array`) resolves to. -/
theorem c3_indirect_composite_contains_raises :
    (∀ (α : Type) (inst : DecidableEq α) (data : List α) (item : α),
        @indirectCompositeArrayContains α inst data item = .error .typeError) ∧
      resolveView
          (.arrayDT
            (.arrayDT (.numberDT (some .npFloat64) (.int 0) Option.none) (.int 2)
              (some "V2") Option.none)
            (.int 4) Option.none Option.none) =
        some
          (some
            (.arrayView "ArrayView" .indirectComposite
              (some (.arrayView "V2" .direct Option.none)))) := by
  exact ⟨fun α inst data item => rfl, rfl⟩

/-- Erasing a differently-keyed entry does not change a lookup
(helper: popping one keyword from the dictionary leaves the lookups of
the remaining field names unchanged). -/
theorem lookup_eraseP_ne (l : List (String × AttrVal)) (n m : String) (h : n ≠ m) :
    (l.eraseP (fun p => p.1 == m)).lookup n = l.lookup n := by
  induction l with
  | nil => rfl
  | cons kv tl ih =>
    by_cases hk : (kv.1 == m) = true
    · rw [List.eraseP_cons, hk]
      have hkk : kv.1 = m := by simpa [beq_iff_eq] using hk
      have hnk : (n == kv.1) = false := by
        simp only [beq_eq_false_iff_ne, ne_eq, hkk]
        exact h
      simp [List.lookup, hnk]
    · rw [List.eraseP_cons, Bool.of_not_eq_true hk]
      by_cases hn : (n == kv.1) = true
      · simp [List.lookup, hn]
      · simp [List.lookup, hn, ih]

/-- Inversion for `asPv` (helper). -/
theorem asPv_eq (a : AttrVal) (x : PyVal) (h : asPv a = some x) : a = .pv x := by
  cases a <;> simp [asPv] at h
  simp [h]

/-- Inversion for `asCls` (helper). -/
theorem asCls_eq (a : AttrVal) (x : Option PyClass) (h : asCls a = some x) :
    a = .cls x := by
  cases a <;> simp [asCls] at h
  simp [h]

/-- Inversion for `asDT` (helper). -/
theorem asDT_eq (a : AttrVal) (x : DataType) (h : asDT a = some x) :
    a = .elemDT x := by
  cases a <;> simp [asDT] at h
  simp [h]

/-- Inversion for `asFlds` (helper). -/
theorem asFlds_eq (a : AttrVal) (x : List FieldT) (h : asFlds a = some x) :
    a = .flds x := by
  cases a <;> simp [asFlds] at h
  simp [h]

/-- Inversion for `asOptStr` (helper). -/
theorem asOptStr_eq (a : AttrVal) (x : Option String) (h : asOptStr a = some x) :
    a = .pv (optStrToPy x) := by
  cases a with
  | pv v =>
    cases v <;> simp [asOptStr] at h <;> simp [optStrToPy, h.symm]
  | cls c => simp [asOptStr] at h
  | elemDT d => simp [asOptStr] at h
  | flds fs => simp [asOptStr] at h

/-- C9: `update` is a non-mutating partial copy.  First conjunct: for
every schema node and every override set, a successful `update` returns
a node whose attribute list is the original's with exactly the
overridden names replaced by the supplied values (so non-overridden
attributes keep the original's values; the original record itself is an
immutable value and is untouched).  The remaining conjuncts run the
claim's instance: `update(Number(default=0), default=99)` yields a node
with default `99` while the original node's `default` reads `0`. -/
theorem c9_update_copy_law :
    (∀ (dt : DataType) (kws : List (String × AttrVal)) (dt2 : DataType),
        update dt kws = .ok dt2 →
          attrsOf dt2 =
            (attrsOf dt).map (fun p => (p.1, ((kws.lookup p.1).getD p.2)))) ∧
      update (.numberDT (some .npFloat64) (.int 0) Option.none)
          [("default", .pv (.int 99))] =
        .ok (.numberDT (some .npFloat64) (.int 99) Option.none) ∧
      (attrsOf (.numberDT (some .npFloat64) (.int 0) Option.none)).lookup "default" =
        some (.pv (.int 0)) := by
  refine ⟨fun dt kws dt2 h => ?_, rfl, rfl⟩
  cases dt with
  | boolDT d v =>
    simp only [update, popKw] at h
    split at h
    · split at h
      · rename_i d2 v2 hd hv
        injection h with h
        rw [lookup_eraseP_ne _ _ _ (by decide)] at hv
        rw [h.symm]
        simp [attrsOf, asPv_eq _ _ hd, asCls_eq _ _ hv]
      · exact absurd h (by simp)
    · exact absurd h (by simp)
  | objectDT d v =>
    simp only [update, popKw] at h
    split at h
    · split at h
      · rename_i d2 v2 hd hv
        injection h with h
        rw [lookup_eraseP_ne _ _ _ (by decide)] at hv
        rw [h.symm]
        simp [attrsOf, asPv_eq _ _ hd, asCls_eq _ _ hv]
      · exact absurd h (by simp)
    · exact absurd h (by simp)
  | numberDT t d v =>
    simp only [update, popKw] at h
    split at h
    · split at h
      · rename_i t2 d2 v2 ht hd hv
        injection h with h
        rw [lookup_eraseP_ne _ _ _ (by decide)] at hd
        rw [lookup_eraseP_ne _ _ _ (by decide),
          lookup_eraseP_ne _ _ _ (by decide)] at hv
        rw [h.symm]
        simp [attrsOf, asCls_eq _ _ ht, asPv_eq _ _ hd, asCls_eq _ _ hv]
      · exact absurd h (by simp)
    · exact absurd h (by simp)
  | stringDT l d v =>
    simp only [update, popKw] at h
    split at h
    · split at h
      · rename_i l2 d2 v2 hl hd hv
        injection h with h
        rw [lookup_eraseP_ne _ _ _ (by decide)] at hd
        rw [lookup_eraseP_ne _ _ _ (by decide),
          lookup_eraseP_ne _ _ _ (by decide)] at hv
        rw [h.symm]
        simp [attrsOf, asPv_eq _ _ hl, asPv_eq _ _ hd, asCls_eq _ _ hv]
      · exact absurd h (by simp)
    · exact absurd h (by simp)
  | unicodeDT l d v =>
    simp only [update, popKw] at h
    split at h
    · split at h
      · rename_i l2 d2 v2 hl hd hv
        injection h with h
        rw [lookup_eraseP_ne _ _ _ (by decide)] at hd
        rw [lookup_eraseP_ne _ _ _ (by decide),
          lookup_eraseP_ne _ _ _ (by decide)] at hv
        rw [h.symm]
        simp [attrsOf, asPv_eq _ _ hl, asPv_eq _ _ hd, asCls_eq _ _ hv]
      · exact absurd h (by simp)
    · exact absurd h (by simp)
  | arrayDT et sh n v =>
    simp only [update, popKw] at h
    split at h
    · split at h
      · rename_i et2 sh2 n2 v2 het hsh hn hv
        injection h with h
        rw [lookup_eraseP_ne _ _ _ (by decide)] at hsh
        rw [lookup_eraseP_ne _ _ _ (by decide),
          lookup_eraseP_ne _ _ _ (by decide)] at hn
        rw [lookup_eraseP_ne _ _ _ (by decide),
          lookup_eraseP_ne _ _ _ (by decide),
          lookup_eraseP_ne _ _ _ (by decide)] at hv
        rw [h.symm]
        simp [attrsOf, asDT_eq _ _ het, asPv_eq _ _ hsh, asOptStr_eq _ _ hn,
          asCls_eq _ _ hv]
      · exact absurd h (by simp)
    · exact absurd h (by simp)
  | structureDT fs n v =>
    simp only [update, popKw] at h
    split at h
    · split at h
      · rename_i fs2 n2 v2 hfs hn hv
        injection h with h
        rw [lookup_eraseP_ne _ _ _ (by decide)] at hn
        rw [lookup_eraseP_ne _ _ _ (by decide),
          lookup_eraseP_ne _ _ _ (by decide)] at hv
        rw [h.symm]
        simp [attrsOf, asFlds_eq _ _ hfs, asOptStr_eq _ _ hn, asCls_eq _ _ hv]
      · exact absurd h (by simp)
    · exact absurd h (by simp)

/-- C9 witness: the copy law applied at the claim's concrete instance. -/
theorem c9_update_copy_law_witness :
    attrsOf (.numberDT (some .npFloat64) (.int 99) Option.none) =
      (attrsOf (.numberDT (some .npFloat64) (.int 0) Option.none)).map
        (fun p =>
          (p.1, (([(("default" : String), AttrVal.pv (.int 99))].lookup p.1).getD p.2))) :=
  c9_update_copy_law.1 (.numberDT (some .npFloat64) (.int 0) Option.none)
    [("default", .pv (.int 99))] (.numberDT (some .npFloat64) (.int 99) Option.none) rfl

/-- C10: `resolve` runs the well-formedness check only when its `check`
argument is true.  First conjunct: with `check=False`, `resolve` never
raises a validation error, for any schema value.  The remaining
conjuncts run the claim's example, a `Structure` whose field list
repeats the name `"id"`: the validator rejects it, `resolve` with
`check=True` surfaces exactly that error, and `resolve` with
`check=False` proceeds through consolidation and resolution — the only
failure left is the external `numpy.dtype` call rejecting the duplicate
field name in the layout, not the validation error. -/
theorem c10_resolve_check_flag :
    (∀ (dt : DataType) (nm : Option String) (l : Bool),
        isValidationError (resolve dt nm l false) = false) ∧
      checkDataType
          (.structureDT
            [.mk2 "id" (.numberDT (some .npFloat64) (.int 0) Option.none),
              .mk2 "id" (.boolDT (.bool false) Option.none)]
            Option.none Option.none) "" =
        .error (.duplicateFields ["id", "id"]) ∧
      resolve
          (.structureDT
            [.mk2 "id" (.numberDT (some .npFloat64) (.int 0) Option.none),
              .mk2 "id" (.boolDT (.bool false) Option.none)]
            Option.none Option.none)
          Option.none false true =
        .error (.validation (.duplicateFields ["id", "id"])) ∧
      resolve
          (.structureDT
            [.mk2 "id" (.numberDT (some .npFloat64) (.int 0) Option.none),
              .mk2 "id" (.boolDT (.bool false) Option.none)]
            Option.none Option.none)
          Option.none false false =
        .error .numpyDtypeError := by
  refine ⟨fun dt nm l => ?_, rfl, rfl, rfl⟩
  rw [resolve]
  simp only [Bind.bind, Except.bind, pure, Except.pure, Bool.false_eq_true,
    if_false]
  rcases hd : resolveDtype (consolidate dt) with _ | d
  · rfl
  · by_cases hok : numpyDtypeOk d = true
    · simp only [hok, if_true]
      rcases hdef : resolveDefault (consolidate dt) l 0 with _ | p
      · rfl
      · rcases hv : resolveView (.arrayDT (consolidate dt) (.int (-1)) nm
            Option.none) with _ | v
        · rfl
        · rfl
    · simp only [hok, Bool.false_eq_true, if_false]
      rfl

/-- A successful association lookup comes from a member (helper). -/
theorem lookup_mem {l : List (Nat × Nat)} {a b : Nat} (h : l.lookup a = some b) :
    (a, b) ∈ l := by
  induction l with
  | nil => simp [List.lookup] at h
  | cons kv tl ih =>
    rcases kv with ⟨k, v⟩
    by_cases hk : (a == k) = true
    · simp only [List.lookup, hk] at h
      injection h with h
      have : a = k := by simpa [beq_iff_eq] using hk
      simp [this, h]
    · simp only [List.lookup, Bool.of_not_eq_true hk] at h
      exact List.mem_cons_of_mem _ (ih h)

/-- Membership in the memo lifts to its recorded identities (helper). -/
theorem mem_memoVals_of_mem {m : List (Nat × Nat)} {p : Nat × Nat} (h : p ∈ m) :
    p.2 ∈ memoVals m :=
  List.mem_map_of_mem _ h

/-- Memo growth lifts to recorded identities (helper). -/
theorem memoVals_mono {m1 m2 : List (Nat × Nat)} (h : ∀ p ∈ m1, p ∈ m2) :
    ∀ j ∈ memoVals m1, j ∈ memoVals m2 := by
  intro j hj
  rcases List.mem_map.mp hj with ⟨p, hp, rfl⟩
  exact List.mem_map_of_mem _ (h p hp)

mutual
/-- Range discipline of one deep-copy traversal (helper): the identity
counter never decreases, the memo only grows, every identity the memo
records is an old one or was allocated during the traversal, and every
identity reachable in the copy is recorded in the final memo. -/
theorem deepcopyV_spec (v : PyVal) (st : CopySt) :
    st.1 ≤ (deepcopyV v st).2.1 ∧
      (∀ p ∈ st.2, p ∈ (deepcopyV v st).2.2) ∧
      (∀ j ∈ memoVals (deepcopyV v st).2.2,
        j ∈ memoVals st.2 ∨ (st.1 ≤ j ∧ j < (deepcopyV v st).2.1)) ∧
      (∀ i ∈ pyIds (deepcopyV v st).1, i ∈ memoVals (deepcopyV v st).2.2) := by
  cases v with
  | none => exact ⟨le_refl _, fun p hp => hp, fun j hj => Or.inl hj, by simp [pyIds]⟩
  | bool b => exact ⟨le_refl _, fun p hp => hp, fun j hj => Or.inl hj, by simp [pyIds]⟩
  | int n => exact ⟨le_refl _, fun p hp => hp, fun j hj => Or.inl hj, by simp [pyIds]⟩
  | str s => exact ⟨le_refl _, fun p hp => hp, fun j hj => Or.inl hj, by simp [pyIds]⟩
  | bytes s =>
    exact ⟨le_refl _, fun p hp => hp, fun j hj => Or.inl hj, by simp [pyIds]⟩
  | scalar c a =>
    have ha := deepcopyV_spec a st
    exact ⟨ha.1, ha.2.1, ha.2.2.1, by simpa [deepcopyV, pyIds] using ha.2.2.2⟩
  | tup es =>
    have he := deepcopyL_spec es st
    exact ⟨he.1, he.2.1, he.2.2.1, by simpa [deepcopyV, pyIds] using he.2.2.2⟩
  | ntuple nm fns vs =>
    have he := deepcopyL_spec vs st
    exact ⟨he.1, he.2.1, he.2.2.1, by simpa [deepcopyV, pyIds] using he.2.2.2⟩
  | list i es =>
    cases hl : st.2.lookup i with
    | some j =>
      have he := deepcopyL_spec es st
      refine ⟨?_, ?_, ?_, ?_⟩ <;> simp only [deepcopyV, hl]
      · exact he.1
      · exact he.2.1
      · exact he.2.2.1
      · intro x hx
        simp only [pyIds, List.mem_cons] at hx
        rcases hx with rfl | hx
        · exact memoVals_mono he.2.1 _ (mem_memoVals_of_mem (lookup_mem hl))
        · exact he.2.2.2 x hx
    | none =>
      have he := deepcopyL_spec es (st.1 + 1, (i, st.1) :: st.2)
      refine ⟨?_, ?_, ?_, ?_⟩ <;> simp only [deepcopyV, hl]
      · exact le_trans (Nat.le_succ _) he.1
      · exact fun p hp => he.2.1 p (List.mem_cons_of_mem _ hp)
      · intro j hj
        rcases he.2.2.1 j hj with hm | hr
        · simp only [memoVals, List.map_cons, List.mem_cons] at hm
          rcases hm with rfl | hm
          · exact Or.inr ⟨le_refl _, lt_of_lt_of_le (Nat.lt_succ_self _) he.1⟩
          · exact Or.inl hm
        · exact Or.inr ⟨le_trans (Nat.le_succ _) hr.1, hr.2⟩
      · intro x hx
        simp only [pyIds, List.mem_cons] at hx
        rcases hx with rfl | hx
        · exact memoVals_mono he.2.1 _
            (mem_memoVals_of_mem (List.mem_cons_self _ _))
        · exact he.2.2.2 x hx

/-- List version of `deepcopyV_spec` (helper). -/
theorem deepcopyL_spec (vs : List PyVal) (st : CopySt) :
    st.1 ≤ (deepcopyL vs st).2.1 ∧
      (∀ p ∈ st.2, p ∈ (deepcopyL vs st).2.2) ∧
      (∀ j ∈ memoVals (deepcopyL vs st).2.2,
        j ∈ memoVals st.2 ∨ (st.1 ≤ j ∧ j < (deepcopyL vs st).2.1)) ∧
      (∀ i ∈ pyIdsL (deepcopyL vs st).1, i ∈ memoVals (deepcopyL vs st).2.2) := by
  cases vs with
  | nil => exact ⟨le_refl _, fun p hp => hp, fun j hj => Or.inl hj, by simp [pyIdsL]⟩
  | cons v rest =>
    have hv := deepcopyV_spec v st
    have hr := deepcopyL_spec rest (deepcopyV v st).2
    refine ⟨?_, ?_, ?_, ?_⟩ <;> simp only [deepcopyL]
    · exact le_trans hv.1 hr.1
    · exact fun p hp => hr.2.1 p (hv.2.1 p hp)
    · intro j hj
      rcases hr.2.2.1 j hj with hm | hrange
      · rcases hv.2.2.1 j hm with hm2 | hrange2
        · exact Or.inl hm2
        · exact Or.inr ⟨hrange2.1, lt_of_lt_of_le hrange2.2 hr.1⟩
      · exact Or.inr ⟨le_trans hv.1 hrange.1, hrange.2⟩
    · intro x hx
      simp only [pyIdsL, List.mem_append] at hx
      rcases hx with hx | hx
      · exact memoVals_mono hr.2.1 _ (hv.2.2.2 x hx)
      · exact hr.2.2.2 x hx
end

/-- One fresh `copy.deepcopy` call allocates all the identities of its
result inside the half-open counter interval it consumed (helper). -/
theorem deepcopy_range (v : PyVal) (c : Nat) :
    c ≤ (deepcopy v c).2 ∧
      ∀ i ∈ pyIds (deepcopy v c).1, c ≤ i ∧ i < (deepcopy v c).2 := by
  have h := deepcopyV_spec v (c, [])
  refine ⟨h.1, fun i hi => ?_⟩
  rcases h.2.2.1 i (h.2.2.2 i hi) with hm | hr
  · simp [memoVals] at hm
  · exact hr

/-- The number of repeated copies matches the requested count (helper). -/
theorem deepcopies_length (v : PyVal) (k c : Nat) :
    ((deepcopies v k c).1).length = k := by
  induction k generalizing c with
  | zero => rfl
  | succ k2 ih => simp [deepcopies, ih]

mutual
/-- Mutating an identity that is not reachable in a value leaves the
value unchanged (helper). -/
theorem mutateAt_not_mem (id : Nat) (f : List PyVal → List PyVal) (v : PyVal)
    (h : id ∉ pyIds v) : mutateAt id f v = v := by
  cases v with
  | none => rfl
  | bool b => rfl
  | int n => rfl
  | str s => rfl
  | bytes s => rfl
  | scalar c a =>
    have : id ∉ pyIds a := by simpa [pyIds] using h
    simp [mutateAt, mutateAt_not_mem id f a this]
  | tup es =>
    have : id ∉ pyIdsL es := by simpa [pyIds] using h
    simp [mutateAt, mutateAtL_not_mem id f es this]
  | ntuple nm fns vs =>
    have : id ∉ pyIdsL vs := by simpa [pyIds] using h
    simp [mutateAt, mutateAtL_not_mem id f vs this]
  | list j es =>
    simp only [pyIds, List.mem_cons, not_or] at h
    simp [mutateAt, Ne.symm h.1, mutateAtL_not_mem id f es h.2]

/-- List version of `mutateAt_not_mem` (helper). -/
theorem mutateAtL_not_mem (id : Nat) (f : List PyVal → List PyVal)
    (vs : List PyVal) (h : id ∉ pyIdsL vs) : mutateAtL id f vs = vs := by
  cases vs with
  | nil => rfl
  | cons v rest =>
    simp only [pyIdsL, List.mem_append, not_or] at h
    simp [mutateAtL, mutateAt_not_mem id f v h.1, mutateAtL_not_mem id f rest h.2]
end

/-- C8: the resolved default of an `Array` of shape `(n,)` with `n ≥ 2`
wrapping an `Object` element aliases no mutable sub-object between
distinct elements: the default is a tuple of `n` elements, and mutating
any mutable object reachable from the element at index 0 leaves the
element at index 1 unchanged, because each repetition deep-copies the
element default into identities from disjoint counter ranges. -/
theorem c8_default_no_aliasing (d : PyVal) (n c0 : Nat) (out : PyVal) (c1 : Nat)
    (hn : 2 ≤ n)
    (hres :
      resolveDefault
          (.arrayDT (.objectDT d Option.none) (.tup [.int (Int.ofNat n)])
            Option.none Option.none)
          false c0 =
        some (out, c1)) :
    ∃ elems, out = .tup elems ∧ elems.length = n ∧
      ∀ id ∈ pyIds (elems.getD 0 .none),
        ∀ f, mutateAt id f (elems.getD 1 .none) = elems.getD 1 .none := by
  have hcomp :
      resolveDefault
          (.arrayDT (.objectDT d Option.none) (.tup [.int (Int.ofNat n)])
            Option.none Option.none)
          false c0 =
        some (.tup (deepcopies d n c0).1, (deepcopies d n c0).2) := rfl
  rw [hcomp] at hres
  injection hres with hres
  have hout : out = .tup (deepcopies d n c0).1 := congrArg Prod.fst hres |>.symm
  refine ⟨(deepcopies d n c0).1, hout, deepcopies_length d n c0, ?_⟩
  obtain ⟨k, rfl⟩ : ∃ k, n = k + 2 := ⟨n - 2, by omega⟩
  have hunfold :
      (deepcopies d (k + 2) c0).1 =
        (deepcopy d c0).1 ::
          (deepcopy d (deepcopy d c0).2).1 ::
            (deepcopies d k (deepcopy d (deepcopy d c0).2).2).1 := rfl
  rw [hunfold]
  intro id hid f
  have h1 := deepcopy_range d c0
  have h2 := deepcopy_range d (deepcopy d c0).2
  simp only [List.getD_cons_zero] at hid
  simp only [List.getD_cons_succ, List.getD_cons_zero]
  refine mutateAt_not_mem id f _ (fun hmem => ?_)
  have ha := (h1.2 id hid).2
  have hb := (h2.2 id hmem).1
  omega

/-- C8 witness: the non-aliasing theorem applied to a concrete `Object`
default (a mutable empty list) repeated twice. -/
theorem c8_default_no_aliasing_witness :
    ∃ elems, (.tup [.list 1 [], .list 2 []] : PyVal) = .tup elems ∧
      elems.length = 2 ∧
      ∀ id ∈ pyIds (elems.getD 0 .none),
        ∀ f, mutateAt id f (elems.getD 1 .none) = elems.getD 1 .none :=
  c8_default_no_aliasing (.list 0 []) 2 1 (.tup [.list 1 [], .list 2 []]) 3
    (by decide) rfl

/-- C3 witness: the broken membership test evaluated on a concrete
buffer and item. -/
theorem c3_indirect_composite_contains_raises_witness :
    indirectCompositeArrayContains ([0, 1] : List Nat) 0 = .error .typeError :=
  c3_indirect_composite_contains_raises.1 Nat Nat.decEq [0, 1] 0

/-- C4 amended witness: the rejection of `numpy.bool_` evaluated at a
concrete node. -/
theorem c4_amended_numeric_kind_check_witness :
    checkDataType (.numberDT (some .npBool) (.int 0) Option.none) "" =
      .error (.attrNotSubclass "Number" "type" numberTypes .npBool) :=
  c4_amended_numeric_kind_check.1 (.int 0) Option.none

/-- C5 amended witness: a tuple shape with a negative entry evaluated
through the validator. -/
theorem c5_amended_shape_check_shallow_witness :
    checkDataType
        (.arrayDT (.boolDT (.bool false) Option.none) (.tup [.int (-1)])
          Option.none Option.none) "" =
      .ok () :=
  c5_amended_shape_check_shallow.1 [.int (-1)]

/-- C6 witness: idempotence evaluated on a concrete structure schema
with a raw 2-tuple field. -/
theorem c6_consolidate_idempotent_witness :
    consolidate
        (consolidate
          (.structureDT [.mk2 "id" (.numberDT (some .npUint32) (.int 0) Option.none)]
            Option.none Option.none)) =
      consolidate
        (.structureDT [.mk2 "id" (.numberDT (some .npUint32) (.int 0) Option.none)]
          Option.none Option.none) :=
  c6_consolidate_idempotent
    (.structureDT [.mk2 "id" (.numberDT (some .npUint32) (.int 0) Option.none)]
      Option.none Option.none)

/-- C7 witness: the shape-collapse equivalence evaluated at a concrete
nested array. -/
theorem c7_layout_shape_collapse_witness :
    resolveDtype
        (.arrayDT
          (.arrayDT (.numberDT (some .npFloat32) (.int 0) Option.none) (.tup [.int 2])
            Option.none Option.none)
          (.int 0) Option.none Option.none) =
      resolveDtype
        (.arrayDT
          (.arrayDT (.numberDT (some .npFloat32) (.int 0) Option.none) (.int 2)
            Option.none Option.none)
          (.int 0) Option.none Option.none) :=
  c7_layout_shape_collapse (.numberDT (some .npFloat32) (.int 0) Option.none) 2
    (.int 0) Option.none Option.none Option.none Option.none

/-- C10 witness: with `check=False`, resolving the duplicate-field
structure does not produce the validation error. -/
theorem c10_resolve_check_flag_witness :
    isValidationError
        (resolve
          (.structureDT
            [.mk2 "id" (.numberDT (some .npFloat64) (.int 0) Option.none),
              .mk2 "id" (.boolDT (.bool false) Option.none)]
            Option.none Option.none)
          Option.none false false) =
      false :=
  c10_resolve_check_flag.1
    (.structureDT
      [.mk2 "id" (.numberDT (some .npFloat64) (.int 0) Option.none),
        .mk2 "id" (.boolDT (.bool false) Option.none)]
      Option.none Option.none)
    Option.none false

end NaniModel
